import Mathlib

/-!
Verification of the Email Agent repository (src/config.py, src/main.py).

The configuration layer (credential storage with environment fallback,
masking, bulk setters) and the Composio-facing operations
(check_connected_account_exists, get_or_create_auth_config,
authenticate_gmail) are embedded directly from the source.

Python truthiness on optional strings (None and "" are falsy) is modelled
by `truthy`; `pyOr` models Python's `a or b` on optional strings.
-/

namespace EmailAgent

/-- Python truthiness of an optional string: `None` and `""` are falsy. -/
def truthy : Option String → Bool
  | none => false
  | some s => decide (s ≠ "")

/-- Python `a or b` on optional strings: returns `a` when truthy, else `b`. -/
def pyOr (a b : Option String) : Option String :=
  if truthy a then a else b

/-- `os.getenv(name, default)`: the environment value when the variable is
set, else the default. -/
def getenvD (v : Option String) (d : String) : String :=
  v.getD d

/-- The persisted `credentials.json` record (`Config._config`): each key is
present (`some`, possibly the empty string) or absent (`none`). -/
structure ConfigStore where
  composio_api_key : Option String
  openai_api_key : Option String
  azure_openai_endpoint : Option String
  openai_api_version : Option String
  azure_openai_deployment : Option String
  gmail_client_id : Option String
  gmail_client_secret : Option String
  user_id : Option String
deriving DecidableEq, Repr

/-- The persisted `auth_config.json` record (`Config._auth_config`). -/
structure AuthStore where
  connection_id : Option String
  gmail_auth_config_id : Option String
deriving DecidableEq, Repr

/-- The process environment variables consulted by the getters. -/
structure EnvVars where
  composio_api_key : Option String
  openai_api_key : Option String
  azure_openai_endpoint : Option String
  openai_api_version : Option String
  azure_openai_deployment : Option String
  gmail_client_id : Option String
  gmail_client_secret : Option String
deriving DecidableEq, Repr

/-- The full credential state a `Config` instance observes: the two
persisted records plus the (read-only) environment. -/
structure Config where
  store : ConfigStore
  auth : AuthStore
  env : EnvVars
deriving DecidableEq, Repr

/-- A `Config` whose stores and environment are fully unset. -/
def emptyConfig : Config :=
  ⟨⟨none, none, none, none, none, none, none, none⟩,
   ⟨none, none⟩,
   ⟨none, none, none, none, none, none, none⟩⟩

/-- Getter `Config.composio_api_key`:
`self._config.get('composio_api_key') or os.getenv('COMPOSIO_API_KEY')`. -/
def Config.composio_api_key (c : Config) : Option String :=
  pyOr c.store.composio_api_key c.env.composio_api_key

/-- Getter `Config.openai_api_key`:
`self._config.get('openai_api_key') or os.getenv('OPENAI_API_KEY')`. -/
def Config.openai_api_key (c : Config) : Option String :=
  pyOr c.store.openai_api_key c.env.openai_api_key

/-- Getter `Config.azure_openai_endpoint`:
`self._config.get('azure_openai_endpoint') or os.getenv('AZURE_OPENAI_ENDPOINT')`. -/
def Config.azure_openai_endpoint (c : Config) : Option String :=
  pyOr c.store.azure_openai_endpoint c.env.azure_openai_endpoint

/-- Getter `Config.openai_api_version`:
`self._config.get('openai_api_version') or os.getenv('OPENAI_API_VERSION', '2024-12-01-preview')`. -/
def Config.openai_api_version (c : Config) : String :=
  if truthy c.store.openai_api_version then c.store.openai_api_version.getD ""
  else getenvD c.env.openai_api_version "2024-12-01-preview"

/-- Getter `Config.azure_openai_deployment`:
`self._config.get('azure_openai_deployment') or os.getenv('AZURE_OPENAI_DEPLOYMENT', 'gpt-4o')`. -/
def Config.azure_openai_deployment (c : Config) : String :=
  if truthy c.store.azure_openai_deployment then c.store.azure_openai_deployment.getD ""
  else getenvD c.env.azure_openai_deployment "gpt-4o"

/-- Getter `Config.gmail_client_id`:
`self._config.get('gmail_client_id') or os.getenv('GMAIL_CLIENT_ID')`. -/
def Config.gmail_client_id (c : Config) : Option String :=
  pyOr c.store.gmail_client_id c.env.gmail_client_id

/-- Getter `Config.gmail_client_secret`:
`self._config.get('gmail_client_secret') or os.getenv('GMAIL_CLIENT_SECRET')`. -/
def Config.gmail_client_secret (c : Config) : Option String :=
  pyOr c.store.gmail_client_secret c.env.gmail_client_secret

/-- Getter `Config.user_id`: `self._config.get('user_id', 'default_user')`.
Note: a stored value (even the empty string) is returned as-is; there is no
environment fallback for this key. -/
def Config.user_id (c : Config) : String :=
  c.store.user_id.getD "default_user"

/-- `Config.is_configured`: truthiness of the three required getters. -/
def Config.is_configured (c : Config) : Bool :=
  truthy c.composio_api_key && truthy c.openai_api_key &&
    truthy c.azure_openai_endpoint

/-- `Config.is_authenticated`: `bool(self.connection_id)`. -/
def Config.is_authenticated (c : Config) : Bool :=
  truthy c.auth.connection_id

/-- `Config.get_missing_credentials`: appends the name of each required
credential whose getter is falsy, in declaration order. -/
def Config.get_missing_credentials (c : Config) : List String :=
  (if truthy c.composio_api_key then [] else ["composio_api_key"]) ++
  (if truthy c.openai_api_key then [] else ["openai_api_key"]) ++
  (if truthy c.azure_openai_endpoint then [] else ["azure_openai_endpoint"])

/-- The mask printed in place of a sensitive value by `Config.to_dict`. -/
def MASK : String := "***"

/-- The shape of the dictionary returned by `Config.to_dict` (fixed keys). -/
structure ConfigReport where
  composio_api_key : Option String
  openai_api_key : Option String
  azure_openai_endpoint : Option String
  openai_api_version : String
  azure_openai_deployment : String
  gmail_client_id : Option String
  gmail_client_secret : Option String
  user_id : String
  connection_id : Option String
  gmail_auth_config_id : Option String
  is_configured : Bool
  is_authenticated : Bool
deriving DecidableEq, Repr

/-- `Config.to_dict`: the masked configuration report. Each sensitive getter
maps to `'***'` when truthy and `None` otherwise; the endpoint, version,
deployment, user id and auth-state identifiers are reported as-is. -/
def Config.to_dict (c : Config) : ConfigReport :=
  ⟨(if truthy c.composio_api_key then some MASK else none),
   (if truthy c.openai_api_key then some MASK else none),
   c.azure_openai_endpoint,
   c.openai_api_version,
   c.azure_openai_deployment,
   (if truthy c.gmail_client_id then some MASK else none),
   (if truthy c.gmail_client_secret then some MASK else none),
   c.user_id,
   c.auth.connection_id,
   c.auth.gmail_auth_config_id,
   c.is_configured,
   c.is_authenticated⟩

/-- The (keyword) arguments of `Config.set_credentials`; `none` models a
missing argument or an explicit `None`. -/
structure SetArgs where
  composio_api_key : Option String
  openai_api_key : Option String
  azure_openai_endpoint : Option String
  openai_api_version : Option String
  azure_openai_deployment : Option String
  gmail_client_id : Option String
  gmail_client_secret : Option String
  user_id : Option String
deriving DecidableEq, Repr

/-- A `SetArgs` with every argument absent. -/
def SetArgs.allNone : SetArgs :=
  ⟨none, none, none, none, none, none, none, none⟩

/-- One `if value: setattr` guard of `set_credentials`: the stored value is
replaced only when the supplied argument is truthy. -/
def applyIf (cur arg : Option String) : Option String :=
  if truthy arg then arg else cur

/-- Number of persisted-file writes one guard of `set_credentials` causes
(each property setter rewrites the credential file once). -/
def writeCount (arg : Option String) : Nat :=
  if truthy arg then 1 else 0

/-- `Config.set_credentials`: applies each truthy argument through the
corresponding property setter (each of which persists). The second
component counts the file writes performed. The setters touch disjoint
keys, so the sequential composition equals this simultaneous update. -/
def Config.set_credentials (c : Config) (a : SetArgs) : Config × Nat :=
  (⟨⟨applyIf c.store.composio_api_key a.composio_api_key,
     applyIf c.store.openai_api_key a.openai_api_key,
     applyIf c.store.azure_openai_endpoint a.azure_openai_endpoint,
     applyIf c.store.openai_api_version a.openai_api_version,
     applyIf c.store.azure_openai_deployment a.azure_openai_deployment,
     applyIf c.store.gmail_client_id a.gmail_client_id,
     applyIf c.store.gmail_client_secret a.gmail_client_secret,
     applyIf c.store.user_id a.user_id⟩,
    c.auth, c.env⟩,
   writeCount a.composio_api_key + writeCount a.openai_api_key +
     writeCount a.azure_openai_endpoint + writeCount a.openai_api_version +
     writeCount a.azure_openai_deployment + writeCount a.gmail_client_id +
     writeCount a.gmail_client_secret + writeCount a.user_id)

/-- Setter `Config.connection_id = v` (persists the auth record). -/
def Config.set_connection_id (c : Config) (v : String) : Config :=
  ⟨c.store, ⟨some v, c.auth.gmail_auth_config_id⟩, c.env⟩

/-- Setter `Config.gmail_auth_config_id = v` (persists the auth record). -/
def Config.set_gmail_auth_config_id (c : Config) (v : String) : Config :=
  ⟨c.store, ⟨c.auth.connection_id, some v⟩, c.env⟩

/-!
Models of the Composio-facing operations of src/main.py. Each external
call is represented by its observable result: a listing call yields
`Except String (List _)` (`.error` models a raised exception), and the
provider-assigned identifier of a created object is a parameter.
-/

/-- One item of `composio_client.connected_accounts.list(...).items`. -/
structure Account where
  id : String
  status : String
deriving DecidableEq, Repr

/-- The scan over listed accounts inside `check_connected_account_exists`:
returns true at the first `ACTIVE` account, recording its id as the
connection id; inactive accounts only produce a warning. -/
def scan_accounts (c : Config) : List Account → Bool × Config
  | [] => (false, c)
  | a :: rest =>
    if a.status = "ACTIVE" then (true, c.set_connection_id a.id)
    else scan_accounts c rest

/-- `check_connected_account_exists`: false when the client is not
initialized; false when the listing call raises; otherwise scans the
returned items for an `ACTIVE` account. -/
def check_connected_account_exists (client_ok : Bool)
    (listing : Except String (List Account)) (c : Config) : Bool × Config :=
  if client_ok then
    match listing with
    | .error _ => (false, c)
    | .ok accounts => scan_accounts c accounts
  else (false, c)

/-- One item of `composio_client.auth_configs.list().items`. -/
structure AuthConfigItem where
  id : String
  toolkit : String
deriving DecidableEq, Repr

/-- The arguments of a `composio_client.auth_configs.create` call as issued
by `get_or_create_auth_config`. -/
structure CreateCall where
  toolkit : String
  name : String
  auth_type : String
  auth_scheme : String
  client_id : Option String
  client_secret : Option String
deriving DecidableEq, Repr

/-- First lookup of `get_or_create_auth_config`: the listed item whose id
equals the recorded auth-config id, if the listing succeeds and one exists. -/
def find_recorded (rid : String) : Except String (List AuthConfigItem) →
    Option AuthConfigItem
  | .error _ => none
  | .ok items => items.find? (fun it => it.id == rid)

/-- Second lookup of `get_or_create_auth_config`: the first listed item
whose toolkit is `GMAIL`, if the listing succeeds and one exists. -/
def find_gmail : Except String (List AuthConfigItem) → Option AuthConfigItem
  | .error _ => none
  | .ok items => items.find? (fun it => it.toolkit == "GMAIL")

/-- The outcome of `get_or_create_auth_config`: the auth-config item
returned, the (possibly updated) configuration state, and the create call
issued, if any. -/
structure GOCResult where
  item : AuthConfigItem
  config : Config
  createCall : Option CreateCall
deriving DecidableEq, Repr

/-- `get_or_create_auth_config`: returns the recorded auth config when the
provider still lists it; else the first listed GMAIL auth config (recording
its id); else creates a new one with `use_custom_auth` OAUTH2 credentials
taken from the `gmail_client_id` / `gmail_client_secret` getters, and
records the provider-assigned id. `l1` and `l2` are the results of the two
`auth_configs.list()` calls; `newId` is the id the provider assigns on
creation. -/
def get_or_create_auth_config (c : Config)
    (l1 l2 : Except String (List AuthConfigItem)) (newId : String) :
    GOCResult :=
  match
    (if truthy c.auth.gmail_auth_config_id then
      find_recorded (c.auth.gmail_auth_config_id.getD "") l1
    else none) with
  | some item => ⟨item, c, none⟩
  | none =>
    match find_gmail l2 with
    | some item => ⟨item, c.set_gmail_auth_config_id item.id, none⟩
    | none =>
      ⟨⟨newId, "GMAIL"⟩, c.set_gmail_auth_config_id newId,
       some ⟨"GMAIL", "email_agent_gmail_auth", "use_custom_auth", "OAUTH2",
             c.gmail_client_id, c.gmail_client_secret⟩⟩

/-- The connection request returned by `connected_accounts.initiate`. -/
structure ConnectionRequest where
  redirect_url : String
  id : String
deriving DecidableEq, Repr

/-- `authenticate_gmail`: obtains an auth config, initiates a connection,
then blocks on `wait_for_connection(timeout=120)`. `waitResult` is that
call's outcome (`.error` models the timeout exception). On success the
connection id is recorded and returned; on timeout the exception
propagates and the connection id is not recorded, while any state recorded
by `get_or_create_auth_config` remains. -/
def authenticate_gmail (c : Config)
    (l1 l2 : Except String (List AuthConfigItem)) (newId : String)
    (req : ConnectionRequest) (waitResult : Except String Unit) :
    Except String String × Config :=
  let g := get_or_create_auth_config c l1 l2 newId
  match waitResult with
  | .error e => (.error e, g.config)
  | .ok _ => (.ok req.id, g.config.set_connection_id req.id)

end EmailAgent

namespace AgentLoop

/-!
Modelled from the spec: the iterative Tool-Execution Agent Loop variant of
`run_gmail_agent` (spec sections 4.2 and 9 describe it as one of two
near-duplicate orchestration variants in the source; only the single-round
variant appears under src/). The model follows the spec's algorithm: a
bounded loop of at most 5 model calls; a tool-call-free response returns
its text (empty/absent text maps to a fixed fallback); otherwise the
assistant message and one truncated tool-result message per tool call are
appended, in call order; after 5 iterations a fixed generic completion
message is returned. The model provider is a function from the model-call
index to a response; tool execution is a function from a tool call to an
optional raw result.
-/

/-- Modelled from the spec: the 15,000-character cap on a tool result. -/
def TOOL_RESULT_MAX : Nat := 15000

/-- Modelled from the spec: the fixed truncation marker appended to an
over-long tool result (its exact text is not given by the spec). -/
def TRUNCATION_SUFFIX : String := " ...[truncated]"

/-- Modelled from the spec: the fixed generic completion message returned
when the loop exhausts all iterations. -/
def GENERIC_COMPLETION : String :=
  "I have completed the requested actions."

/-- Modelled from the spec: the fixed fallback string returned when a
final model response has empty or absent text. -/
def EMPTY_FALLBACK : String := "Action completed"

/-- Modelled from the spec: the fixed string standing in for an absent
tool-execution result. -/
def TOOL_NO_RESULT : String := "completed"

/-- Modelled from the spec: the iteration cap of the agent loop. -/
def MAX_ITERATIONS : Nat := 5

/-- Modelled from the spec: the fixed system instruction seeding the
session. -/
def SYSTEM_PROMPT : String :=
  "You are a helpful Gmail assistant. Be concise, cap result sizes, and summarize after actions."

/-- A tool call produced by the model provider. -/
structure ToolCall where
  id : String
  name : String
  arguments : String
deriving DecidableEq, Repr

/-- One model-provider response: optional text and a list of tool calls. -/
structure ModelResponse where
  content : Option String
  tool_calls : List ToolCall
deriving DecidableEq, Repr

/-- The role of a session message. -/
inductive Role where
  | system
  | user
  | assistant
  | tool
deriving DecidableEq, Repr

/-- One session message; tool-result messages carry the originating call's
identifier in `tool_call_id`, assistant messages carry their tool calls. -/
structure Message where
  role : Role
  content : String
  tool_call_id : Option String
  tool_calls : List ToolCall
deriving DecidableEq, Repr

/-- Modelled from the spec: truncate a tool-result string to at most
`TOOL_RESULT_MAX` characters, appending the fixed marker if truncated. -/
def truncate_result (s : String) : String :=
  if TOOL_RESULT_MAX < s.length then
    String.mk (s.data.take TOOL_RESULT_MAX) ++ TRUNCATION_SUFFIX
  else s

/-- Modelled from the spec: convert a raw tool-execution result to a
string; absence of a result maps to the fixed completed string. -/
def tool_result_string : Option String → String
  | some s => s
  | none => TOOL_NO_RESULT

/-- Modelled from the spec: a final response's text, with empty or absent
content mapped to the fixed fallback string. -/
def content_or_fallback : Option String → String
  | some t => if t = "" then EMPTY_FALLBACK else t
  | none => EMPTY_FALLBACK

/-- The assistant message appended for a tool-call-bearing response. -/
def assistant_message (resp : ModelResponse) : Message :=
  ⟨Role.assistant, resp.content.getD "", none, resp.tool_calls⟩

/-- The tool-result message appended for one tool call: the executed
result, stringified and truncated, tagged with the call's identifier. -/
def tool_message (exec : ToolCall → Option String) (tc : ToolCall) :
    Message :=
  ⟨Role.tool, truncate_result (tool_result_string (exec tc)), some tc.id, []⟩

/-- The outcome of one agent invocation: the returned text, the final
session, and the number of model calls and tool executions performed. -/
structure AgentResult where
  text : String
  session : List Message
  model_calls : Nat
  tool_execs : Nat
deriving DecidableEq, Repr

/-- Modelled from the spec: the bounded agent loop. `model k` is the
response to the `k`-th model call (0-based); `fuel` is the number of
remaining iterations; `calls` and `execs` count the model calls and tool
executions performed so far. -/
def runLoop (model : Nat → ModelResponse) (exec : ToolCall → Option String) :
    Nat → List Message → Nat → Nat → AgentResult
  | 0, session, calls, execs => ⟨GENERIC_COMPLETION, session, calls, execs⟩
  | fuel + 1, session, calls, execs =>
    let resp := model calls
    if resp.tool_calls = [] then
      ⟨content_or_fallback resp.content, session, calls + 1, execs⟩
    else
      runLoop model exec fuel
        (session ++ [assistant_message resp] ++
          resp.tool_calls.map (tool_message exec))
        (calls + 1) (execs + resp.tool_calls.length)

/-- Modelled from the spec: one invocation of the iterative
`run_gmail_agent` on a prompt: seeds the session with the system message
and the user prompt, then runs at most `MAX_ITERATIONS` iterations. -/
def run_gmail_agent (model : Nat → ModelResponse)
    (exec : ToolCall → Option String) (prompt : String) : AgentResult :=
  runLoop model exec MAX_ITERATIONS
    [⟨Role.system, SYSTEM_PROMPT, none, []⟩, ⟨Role.user, prompt, none, []⟩]
    0 0

end AgentLoop

namespace EmailAgent

/-- The claim, as stated: for every credential, the getter returns the
stored value whenever one was explicitly set, overriding any environment
value (here instantiated at the Composio API key). -/
def stored_always_overrides_env : Prop :=
  ∀ (c : Config) (v : String), c.store.composio_api_key = some v →
    c.composio_api_key = some v

/-- A credential state with the Composio key explicitly stored as the
empty string while the environment supplies a different value. -/
def c4cex : Config :=
  ⟨⟨some "", none, none, none, none, none, none, none⟩,
   ⟨none, none⟩,
   ⟨some "env-key", none, none, none, none, none, none⟩⟩

/-- The claim, as stated: when no bring-your-own OAuth client id/secret is
configured, the auth configuration created by `get_or_create_auth_config`
uses a provider-managed auth mode, i.e. not the bring-your-own
`use_custom_auth` mode. -/
def create_respects_credential_mode : Prop :=
  ∀ (c : Config) (l1 l2 : Except String (List AuthConfigItem))
    (newId : String) (cc : CreateCall),
    (get_or_create_auth_config c l1 l2 newId).createCall = some cc →
    truthy c.gmail_client_id = false → truthy c.gmail_client_secret = false →
    cc.auth_type ≠ "use_custom_auth"

/-- A credential state with a recorded auth-config identifier. -/
def c5demo : Config :=
  ⟨⟨none, none, none, none, none, none, none, none⟩,
   ⟨none, some "ac_recorded"⟩,
   ⟨none, none, none, none, none, none, none⟩⟩

/-- A fully populated credential state (first of a masking pair). -/
def c9a : Config :=
  ⟨⟨some "comp-secret-1", some "oai-secret-1", some "https://endpoint",
    some "2024-12-01-preview", some "gpt-4o", some "cid-1", some "csec-1",
    some "alice"⟩,
   ⟨some "conn-7", some "ac-3"⟩,
   ⟨none, none, none, none, none, none, none⟩⟩

/-- Like `c9a` but with every secret replaced by a different value of the
same presence. -/
def c9b : Config :=
  ⟨⟨some "comp-secret-2", some "oai-secret-2", some "https://endpoint",
    some "2024-12-01-preview", some "gpt-4o", some "cid-2", some "csec-2",
    some "alice"⟩,
   ⟨some "conn-7", some "ac-3"⟩,
   ⟨none, none, none, none, none, none, none⟩⟩

/-- A credential state with several stored values, used to demonstrate the
bulk setter leaving state untouched on falsy arguments. -/
def c10demo : Config :=
  ⟨⟨some "comp-key", some "oai-key", some "https://endpoint", none, none,
    some "cid", some "csec", some "bob"⟩,
   ⟨none, none⟩,
   ⟨none, none, none, none, none, none, none⟩⟩

end EmailAgent

namespace AgentLoop

/-- A model that answers every call with a tool-call-bearing response. -/
def loopingModel : Nat → ModelResponse :=
  fun _ => ⟨none, [⟨"call-1", "GMAIL_LIST_LABELS", "{}"⟩]⟩

/-- A tool executor returning no result for every call. -/
def silentExec : ToolCall → Option String :=
  fun _ => none

/-- A model that requests one tool call, then answers with text. -/
def oneToolModel : Nat → ModelResponse :=
  fun k => if k = 0 then ⟨none, [⟨"call-9", "GMAIL_LIST_DRAFTS", "{}"⟩]⟩
           else ⟨some "done", []⟩

/-- A tool executor returning the fixed string result `ok`. -/
def okExec : ToolCall → Option String :=
  fun _ => some "ok"

/-- A model that answers the first call with plain text and no tool calls. -/
def textOnlyModel : Nat → ModelResponse :=
  fun _ => ⟨some "hello", []⟩

/-- A model whose first response has neither tool calls nor content. -/
def emptyTextModel : Nat → ModelResponse :=
  fun _ => ⟨none, []⟩

/-- A 15,001-character string, one character over the truncation cap. -/
def bigInput : String :=
  String.mk (List.replicate 15001 'x')

end AgentLoop

namespace EmailAgent

/-- A credential state where the Composio key is stored non-empty (with a
differing environment value), the OpenAI key comes from the environment
only, and the user id is unset. -/
def c4wit : Config :=
  ⟨⟨some "sk", none, none, none, none, none, none, none⟩,
   ⟨none, none⟩,
   ⟨some "ek", some "oe", none, none, none, none, none⟩⟩

theorem truthy_isSome (o : Option String) (h : truthy o = true) :
    o.isSome = true := by
  cases o <;> simp_all [truthy]

theorem pyOr_of_falsy (a b : Option String) (h : truthy a = false) :
    pyOr a b = b := by
  simp [pyOr, h]

theorem pyOr_stored (a : String) (b : Option String) (h : a ≠ "") :
    pyOr (some a) b = some a := by
  simp [pyOr, truthy, h]

theorem truthy_pyOr (a b : Option String) :
    truthy (pyOr a b) = (truthy a || truthy b) := by
  by_cases h : truthy a = true
  · simp [pyOr, h]
  · simp only [Bool.not_eq_true] at h
    simp [pyOr, h]

/-- Claim C4 (amended): each credential getter resolves a non-empty stored
value first, then the environment variable, then a hard-coded default where
applicable; a value is (non-emptily) present iff non-emptily stored or
non-emptily in the environment; a stored empty string does not override the
environment; the operator user identifier consults only the stored value
(returned even when empty) and the hard-coded default, with no environment
step. -/
theorem C4_credential_resolution (c : Config) :
    (∀ v : String, v ≠ "" → c.store.composio_api_key = some v →
      c.composio_api_key = some v) ∧
    (∀ v : String, v ≠ "" → c.store.openai_api_key = some v →
      c.openai_api_key = some v) ∧
    (∀ v : String, v ≠ "" → c.store.azure_openai_endpoint = some v →
      c.azure_openai_endpoint = some v) ∧
    (∀ v : String, v ≠ "" → c.store.gmail_client_id = some v →
      c.gmail_client_id = some v) ∧
    (∀ v : String, v ≠ "" → c.store.gmail_client_secret = some v →
      c.gmail_client_secret = some v) ∧
    (truthy c.store.composio_api_key = false →
      c.composio_api_key = c.env.composio_api_key) ∧
    (truthy c.store.openai_api_key = false →
      c.openai_api_key = c.env.openai_api_key) ∧
    (truthy c.store.azure_openai_endpoint = false →
      c.azure_openai_endpoint = c.env.azure_openai_endpoint) ∧
    (truthy c.store.gmail_client_id = false →
      c.gmail_client_id = c.env.gmail_client_id) ∧
    (truthy c.store.gmail_client_secret = false →
      c.gmail_client_secret = c.env.gmail_client_secret) ∧
    (truthy c.composio_api_key =
      (truthy c.store.composio_api_key || truthy c.env.composio_api_key)) ∧
    (truthy c.openai_api_key =
      (truthy c.store.openai_api_key || truthy c.env.openai_api_key)) ∧
    (truthy c.azure_openai_endpoint =
      (truthy c.store.azure_openai_endpoint ||
        truthy c.env.azure_openai_endpoint)) ∧
    (∀ v : String, v ≠ "" → c.store.openai_api_version = some v →
      c.openai_api_version = v) ∧
    (truthy c.store.openai_api_version = false →
      c.env.openai_api_version = none →
      c.openai_api_version = "2024-12-01-preview") ∧
    (∀ e : String, truthy c.store.openai_api_version = false →
      c.env.openai_api_version = some e → c.openai_api_version = e) ∧
    (∀ v : String, v ≠ "" → c.store.azure_openai_deployment = some v →
      c.azure_openai_deployment = v) ∧
    (truthy c.store.azure_openai_deployment = false →
      c.env.azure_openai_deployment = none →
      c.azure_openai_deployment = "gpt-4o") ∧
    (∀ e : String, truthy c.store.azure_openai_deployment = false →
      c.env.azure_openai_deployment = some e →
      c.azure_openai_deployment = e) ∧
    (∀ v : String, c.store.user_id = some v → c.user_id = v) ∧
    (c.store.user_id = none → c.user_id = "default_user") := by
  refine ⟨?_, ?_, ?_, ?_, ?_, ?_, ?_, ?_, ?_, ?_, ?_, ?_, ?_, ?_, ?_, ?_,
    ?_, ?_, ?_, ?_, ?_⟩
  · intro v hv hs
    simp only [Config.composio_api_key, hs]
    exact pyOr_stored v _ hv
  · intro v hv hs
    simp only [Config.openai_api_key, hs]
    exact pyOr_stored v _ hv
  · intro v hv hs
    simp only [Config.azure_openai_endpoint, hs]
    exact pyOr_stored v _ hv
  · intro v hv hs
    simp only [Config.gmail_client_id, hs]
    exact pyOr_stored v _ hv
  · intro v hv hs
    simp only [Config.gmail_client_secret, hs]
    exact pyOr_stored v _ hv
  · intro h
    exact pyOr_of_falsy _ _ h
  · intro h
    exact pyOr_of_falsy _ _ h
  · intro h
    exact pyOr_of_falsy _ _ h
  · intro h
    exact pyOr_of_falsy _ _ h
  · intro h
    exact pyOr_of_falsy _ _ h
  · exact truthy_pyOr _ _
  · exact truthy_pyOr _ _
  · exact truthy_pyOr _ _
  · intro v hv hs
    simp [Config.openai_api_version, hs, truthy, hv]
  · intro h1 h2
    simp [Config.openai_api_version, h1, getenvD, h2]
  · intro e h1 h2
    simp [Config.openai_api_version, h1, getenvD, h2]
  · intro v hv hs
    simp [Config.azure_openai_deployment, hs, truthy, hv]
  · intro h1 h2
    simp [Config.azure_openai_deployment, h1, getenvD, h2]
  · intro e h1 h2
    simp [Config.azure_openai_deployment, h1, getenvD, h2]
  · intro v hs
    simp [Config.user_id, hs]
  · intro h
    simp [Config.user_id, h]

/-- Witness for C4: on a concrete state, the non-empty stored Composio key
wins over the environment, the unset OpenAI key falls back to the
environment, and the unset user id resolves to the default. -/
theorem C4_witness :
    c4wit.composio_api_key = some "sk" ∧
    c4wit.openai_api_key = some "oe" ∧
    c4wit.user_id = "default_user" := by
  obtain ⟨h1, h2, h3, h4, h5, h6, h7, h8, h9, h10, h11, h12, h13, h14, h15,
    h16, h17, h18, h19, h20, h21⟩ := C4_credential_resolution c4wit
  exact ⟨h1 "sk" (by decide) rfl, h7 rfl, h21 rfl⟩

/-- Counterexample for C4 as stated: storing the empty string for the
Composio key does not override a differing environment value — the getter
returns the environment value. -/
theorem C4_counterexample : ¬ stored_always_overrides_env := by
  intro h
  exact absurd (h c4cex "" rfl) (by decide)

/-- Claim C7: `is_configured()` is true iff the Composio key, the OpenAI
key and the Azure endpoint are each (non-emptily) present via the stored
or environment source; and with every credential fully unset,
`get_missing_credentials()` returns exactly the three required names in
their fixed order. -/
theorem C7_configuration_iff (c : Config) :
    (c.is_configured = true ↔
      ((truthy c.store.composio_api_key = true ∨
         truthy c.env.composio_api_key = true) ∧
       (truthy c.store.openai_api_key = true ∨
         truthy c.env.openai_api_key = true) ∧
       (truthy c.store.azure_openai_endpoint = true ∨
         truthy c.env.azure_openai_endpoint = true))) ∧
    (c.store = emptyConfig.store → c.env = emptyConfig.env →
      c.get_missing_credentials =
        ["composio_api_key", "openai_api_key", "azure_openai_endpoint"]) := by
  constructor
  · simp [Config.is_configured, Config.composio_api_key,
      Config.openai_api_key, Config.azure_openai_endpoint, truthy_pyOr,
      Bool.and_eq_true, Bool.or_eq_true, and_assoc]
  · intro h1 h2
    simp [Config.get_missing_credentials, Config.composio_api_key,
      Config.openai_api_key, Config.azure_openai_endpoint, h1, h2,
      emptyConfig, pyOr, truthy]

/-- Witness for C7: the fully unset state misses exactly the three
required credential names, in order, and is not configured. -/
theorem C7_witness :
    emptyConfig.get_missing_credentials =
      ["composio_api_key", "openai_api_key", "azure_openai_endpoint"] ∧
    emptyConfig.is_configured = false := by
  refine ⟨(C7_configuration_iff emptyConfig).2 rfl rfl, by decide⟩

/-- Claim C8: when the connected-accounts listing raises, the status check
returns false (with the state untouched) instead of propagating the
exception; this holds for every exception message and every prior state. -/
theorem C8_status_check_error_returns_false (client_ok : Bool)
    (msg : String) (c : Config) :
    check_connected_account_exists client_ok (Except.error msg) c =
      (false, c) := by
  cases client_ok <;> simp [check_connected_account_exists]

/-- Claim C9: the masked report never depends on the value of a secret —
any two credential states agreeing on everything non-secret and on which
secrets are present produce identical reports; and each secret field of
the report is always either null or the fixed mask. -/
theorem C9_to_dict_noninterference :
    (∀ c1 c2 : Config,
      truthy c1.composio_api_key = truthy c2.composio_api_key →
      truthy c1.openai_api_key = truthy c2.openai_api_key →
      truthy c1.gmail_client_id = truthy c2.gmail_client_id →
      truthy c1.gmail_client_secret = truthy c2.gmail_client_secret →
      c1.azure_openai_endpoint = c2.azure_openai_endpoint →
      c1.openai_api_version = c2.openai_api_version →
      c1.azure_openai_deployment = c2.azure_openai_deployment →
      c1.user_id = c2.user_id →
      c1.auth = c2.auth →
      c1.to_dict = c2.to_dict) ∧
    (∀ c : Config,
      (c.to_dict.composio_api_key = none ∨
        c.to_dict.composio_api_key = some MASK) ∧
      (c.to_dict.openai_api_key = none ∨
        c.to_dict.openai_api_key = some MASK) ∧
      (c.to_dict.gmail_client_id = none ∨
        c.to_dict.gmail_client_id = some MASK) ∧
      (c.to_dict.gmail_client_secret = none ∨
        c.to_dict.gmail_client_secret = some MASK)) := by
  constructor
  · intro c1 c2 h1 h2 h3 h4 h5 h6 h7 h8 h9
    simp [Config.to_dict, Config.is_configured, Config.is_authenticated,
      h1, h2, h3, h4, h5, h6, h7, h8, h9]
  · intro c
    refine ⟨?_, ?_, ?_, ?_⟩
    · by_cases h : truthy c.composio_api_key <;> simp [Config.to_dict, h]
    · by_cases h : truthy c.openai_api_key <;> simp [Config.to_dict, h]
    · by_cases h : truthy c.gmail_client_id <;> simp [Config.to_dict, h]
    · by_cases h : truthy c.gmail_client_secret <;> simp [Config.to_dict, h]

/-- Witness for C9: two states whose four secrets all differ in value but
agree in presence produce the same masked report. -/
theorem C9_witness : c9a.to_dict = c9b.to_dict := by
  exact C9_to_dict_noninterference.1 c9a c9b (by decide) (by decide)
    (by decide) (by decide) rfl rfl rfl rfl rfl

/-- Claim C10: `set_credentials` leaves every stored credential whose
argument is falsy (absent, None, or empty) unchanged, can never clear a
stored credential, and with all arguments falsy leaves the whole state
unchanged and performs no file write. -/
theorem C10_set_credentials_skips_falsy (c : Config) (a : SetArgs) :
    ((truthy a.composio_api_key = false →
       (c.set_credentials a).1.store.composio_api_key =
         c.store.composio_api_key) ∧
     (truthy a.openai_api_key = false →
       (c.set_credentials a).1.store.openai_api_key =
         c.store.openai_api_key) ∧
     (truthy a.azure_openai_endpoint = false →
       (c.set_credentials a).1.store.azure_openai_endpoint =
         c.store.azure_openai_endpoint) ∧
     (truthy a.openai_api_version = false →
       (c.set_credentials a).1.store.openai_api_version =
         c.store.openai_api_version) ∧
     (truthy a.azure_openai_deployment = false →
       (c.set_credentials a).1.store.azure_openai_deployment =
         c.store.azure_openai_deployment) ∧
     (truthy a.gmail_client_id = false →
       (c.set_credentials a).1.store.gmail_client_id =
         c.store.gmail_client_id) ∧
     (truthy a.gmail_client_secret = false →
       (c.set_credentials a).1.store.gmail_client_secret =
         c.store.gmail_client_secret) ∧
     (truthy a.user_id = false →
       (c.set_credentials a).1.store.user_id = c.store.user_id)) ∧
    ((c.store.composio_api_key.isSome = true →
       (c.set_credentials a).1.store.composio_api_key.isSome = true) ∧
     (c.store.openai_api_key.isSome = true →
       (c.set_credentials a).1.store.openai_api_key.isSome = true) ∧
     (c.store.azure_openai_endpoint.isSome = true →
       (c.set_credentials a).1.store.azure_openai_endpoint.isSome = true) ∧
     (c.store.openai_api_version.isSome = true →
       (c.set_credentials a).1.store.openai_api_version.isSome = true) ∧
     (c.store.azure_openai_deployment.isSome = true →
       (c.set_credentials a).1.store.azure_openai_deployment.isSome =
         true) ∧
     (c.store.gmail_client_id.isSome = true →
       (c.set_credentials a).1.store.gmail_client_id.isSome = true) ∧
     (c.store.gmail_client_secret.isSome = true →
       (c.set_credentials a).1.store.gmail_client_secret.isSome = true) ∧
     (c.store.user_id.isSome = true →
       (c.set_credentials a).1.store.user_id.isSome = true)) ∧
    (truthy a.composio_api_key = false → truthy a.openai_api_key = false →
     truthy a.azure_openai_endpoint = false →
     truthy a.openai_api_version = false →
     truthy a.azure_openai_deployment = false →
     truthy a.gmail_client_id = false →
     truthy a.gmail_client_secret = false → truthy a.user_id = false →
     c.set_credentials a = (c, 0)) := by
  refine ⟨⟨?_, ?_, ?_, ?_, ?_, ?_, ?_, ?_⟩, ⟨?_, ?_, ?_, ?_, ?_, ?_, ?_, ?_⟩,
    ?_⟩
  · intro h
    simp [Config.set_credentials, applyIf, h]
  · intro h
    simp [Config.set_credentials, applyIf, h]
  · intro h
    simp [Config.set_credentials, applyIf, h]
  · intro h
    simp [Config.set_credentials, applyIf, h]
  · intro h
    simp [Config.set_credentials, applyIf, h]
  · intro h
    simp [Config.set_credentials, applyIf, h]
  · intro h
    simp [Config.set_credentials, applyIf, h]
  · intro h
    simp [Config.set_credentials, applyIf, h]
  · intro h
    by_cases ht : truthy a.composio_api_key
    · simpa [Config.set_credentials, applyIf, ht] using truthy_isSome _ ht
    · simpa [Config.set_credentials, applyIf, ht] using h
  · intro h
    by_cases ht : truthy a.openai_api_key
    · simpa [Config.set_credentials, applyIf, ht] using truthy_isSome _ ht
    · simpa [Config.set_credentials, applyIf, ht] using h
  · intro h
    by_cases ht : truthy a.azure_openai_endpoint
    · simpa [Config.set_credentials, applyIf, ht] using truthy_isSome _ ht
    · simpa [Config.set_credentials, applyIf, ht] using h
  · intro h
    by_cases ht : truthy a.openai_api_version
    · simpa [Config.set_credentials, applyIf, ht] using truthy_isSome _ ht
    · simpa [Config.set_credentials, applyIf, ht] using h
  · intro h
    by_cases ht : truthy a.azure_openai_deployment
    · simpa [Config.set_credentials, applyIf, ht] using truthy_isSome _ ht
    · simpa [Config.set_credentials, applyIf, ht] using h
  · intro h
    by_cases ht : truthy a.gmail_client_id
    · simpa [Config.set_credentials, applyIf, ht] using truthy_isSome _ ht
    · simpa [Config.set_credentials, applyIf, ht] using h
  · intro h
    by_cases ht : truthy a.gmail_client_secret
    · simpa [Config.set_credentials, applyIf, ht] using truthy_isSome _ ht
    · simpa [Config.set_credentials, applyIf, ht] using h
  · intro h
    by_cases ht : truthy a.user_id
    · simpa [Config.set_credentials, applyIf, ht] using truthy_isSome _ ht
    · simpa [Config.set_credentials, applyIf, ht] using h
  · intro h1 h2 h3 h4 h5 h6 h7 h8
    simp [Config.set_credentials, applyIf, writeCount,
      h1, h2, h3, h4, h5, h6, h7, h8]

/-- Witness for C10: a call whose arguments are all absent leaves a
populated state (and its write count) untouched. -/
theorem C10_witness : c10demo.set_credentials SetArgs.allNone =
    (c10demo, 0) := by
  exact (C10_set_credentials_skips_falsy c10demo SetArgs.allNone).2.2
    rfl rfl rfl rfl rfl rfl rfl rfl

/-- Claim C5 (amended): `get_or_create_auth_config` prefers the recorded
identifier when the provider still lists it; otherwise takes the first
listed auth configuration whose toolkit is GMAIL, recording its id;
otherwise creates a new configuration — always in the bring-your-own
`use_custom_auth` OAUTH2 mode with whatever client id/secret the getters
resolve (possibly absent) — and records the provider-assigned id. The two
lookups really select a listed item with the matching id or toolkit. -/
theorem C5_auth_config_preference (c : Config)
    (l1 l2 : Except String (List AuthConfigItem)) (newId : String) :
    (∀ item, truthy c.auth.gmail_auth_config_id = true →
      find_recorded (c.auth.gmail_auth_config_id.getD "") l1 = some item →
      get_or_create_auth_config c l1 l2 newId = ⟨item, c, none⟩) ∧
    (∀ item,
      (if truthy c.auth.gmail_auth_config_id then
        find_recorded (c.auth.gmail_auth_config_id.getD "") l1
      else none) = none →
      find_gmail l2 = some item →
      get_or_create_auth_config c l1 l2 newId =
        ⟨item, c.set_gmail_auth_config_id item.id, none⟩) ∧
    ((if truthy c.auth.gmail_auth_config_id then
        find_recorded (c.auth.gmail_auth_config_id.getD "") l1
      else none) = none →
      find_gmail l2 = none →
      get_or_create_auth_config c l1 l2 newId =
        ⟨⟨newId, "GMAIL"⟩, c.set_gmail_auth_config_id newId,
         some ⟨"GMAIL", "email_agent_gmail_auth", "use_custom_auth",
               "OAUTH2", c.gmail_client_id, c.gmail_client_secret⟩⟩) ∧
    (∀ (rid : String) (items : List AuthConfigItem)
       (item : AuthConfigItem),
      find_recorded rid (Except.ok items) = some item →
      item.id = rid ∧ item ∈ items) ∧
    (∀ (items : List AuthConfigItem) (item : AuthConfigItem),
      find_gmail (Except.ok items) = some item →
      item.toolkit = "GMAIL" ∧ item ∈ items) := by
  refine ⟨?_, ?_, ?_, ?_, ?_⟩
  · intro item h1 h2
    simp [get_or_create_auth_config, h1, h2]
  · intro item h1 h2
    simp [get_or_create_auth_config, h1, h2]
  · intro h1 h2
    simp [get_or_create_auth_config, h1, h2]
  · intro rid items item h
    simp only [find_recorded] at h
    refine ⟨?_, List.mem_of_find?_eq_some h⟩
    have hp := List.find?_some h
    simpa using hp
  · intro items item h
    simp only [find_gmail] at h
    refine ⟨?_, List.mem_of_find?_eq_some h⟩
    have hp := List.find?_some h
    simpa using hp

/-- Witness for C5: with a recorded identifier the provider still lists,
the recorded configuration is returned and the state is untouched. -/
theorem C5_witness :
    get_or_create_auth_config c5demo
      (Except.ok [⟨"ac_recorded", "GMAIL"⟩]) (Except.ok []) "ac_new" =
      ⟨⟨"ac_recorded", "GMAIL"⟩, c5demo, none⟩ := by
  exact (C5_auth_config_preference c5demo
      (Except.ok [⟨"ac_recorded", "GMAIL"⟩]) (Except.ok []) "ac_new").1
    ⟨"ac_recorded", "GMAIL"⟩ (by decide) (by decide)

/-- Counterexample for C5 as stated: with no OAuth client id/secret
configured at all, the created auth configuration still uses the
bring-your-own `use_custom_auth` mode (with absent credentials), not a
provider-managed mode. -/
theorem C5_counterexample : ¬ create_respects_credential_mode := by
  intro h
  exact absurd rfl
    (h emptyConfig (Except.ok []) (Except.ok []) "ac_new"
      ⟨"GMAIL", "email_agent_gmail_auth", "use_custom_auth", "OAUTH2",
       none, none⟩ (by decide) rfl rfl)

/-- The lookup-or-record steps of `get_or_create_auth_config` never touch
the connection id, the credential store, or the environment. -/
theorem goc_preserves_rest (c : Config)
    (l1 l2 : Except String (List AuthConfigItem)) (newId : String) :
    (get_or_create_auth_config c l1 l2 newId).config.auth.connection_id =
      c.auth.connection_id ∧
    (get_or_create_auth_config c l1 l2 newId).config.store = c.store ∧
    (get_or_create_auth_config c l1 l2 newId).config.env = c.env := by
  unfold get_or_create_auth_config
  split
  · exact ⟨rfl, rfl, rfl⟩
  · split
    · simp [Config.set_gmail_auth_config_id]
    · simp [Config.set_gmail_auth_config_id]

/-- Claim C6: when the 120-second wait for connection completion fails,
`authenticate_gmail` surfaces that very error; the connection id is left
exactly as it was before the invocation (no partial connection state),
while the state recorded by `get_or_create_auth_config` — possibly a
freshly recorded auth-config id — is left in place, not rolled back. -/
theorem C6_authenticate_timeout (c : Config)
    (l1 l2 : Except String (List AuthConfigItem)) (newId : String)
    (req : ConnectionRequest) (e : String) :
    authenticate_gmail c l1 l2 newId req (Except.error e) =
      (Except.error e, (get_or_create_auth_config c l1 l2 newId).config) ∧
    (authenticate_gmail c l1 l2 newId req
        (Except.error e)).2.auth.connection_id = c.auth.connection_id ∧
    (authenticate_gmail c l1 l2 newId req (Except.error e)).2.store =
      c.store := by
  have hsnd : (authenticate_gmail c l1 l2 newId req (Except.error e)).2 =
      (get_or_create_auth_config c l1 l2 newId).config := rfl
  refine ⟨rfl, ?_, ?_⟩
  · rw [hsnd]
    exact (goc_preserves_rest c l1 l2 newId).1
  · rw [hsnd]
    exact (goc_preserves_rest c l1 l2 newId).2.1

end EmailAgent

namespace AgentLoop

theorem string_length_mk (l : List Char) : (String.mk l).length = l.length :=
  rfl

theorem string_mk_append (a b : List Char) :
    String.mk a ++ String.mk b = String.mk (a ++ b) :=
  rfl

theorem string_length_append (a b : String) :
    (a ++ b).length = a.length + b.length := by
  cases a
  cases b
  rw [string_mk_append]
  simp [string_length_mk]

theorem runLoop_zero (model : Nat → ModelResponse)
    (exec : ToolCall → Option String) (s : List Message) (calls execs : Nat) :
    runLoop model exec 0 s calls execs =
      ⟨GENERIC_COMPLETION, s, calls, execs⟩ :=
  rfl

theorem runLoop_succ (model : Nat → ModelResponse)
    (exec : ToolCall → Option String) (fuel : Nat) (s : List Message)
    (calls execs : Nat) :
    runLoop model exec (fuel + 1) s calls execs =
      if (model calls).tool_calls = [] then
        ⟨content_or_fallback (model calls).content, s, calls + 1, execs⟩
      else
        runLoop model exec fuel
          (s ++ [assistant_message (model calls)] ++
            (model calls).tool_calls.map (tool_message exec))
          (calls + 1) (execs + (model calls).tool_calls.length) :=
  rfl

theorem runLoop_model_calls_le (model : Nat → ModelResponse)
    (exec : ToolCall → Option String) :
    ∀ (fuel : Nat) (s : List Message) (calls execs : Nat),
      (runLoop model exec fuel s calls execs).model_calls ≤ calls + fuel := by
  intro fuel
  induction fuel with
  | zero =>
    intro s calls execs
    simp [runLoop_zero]
  | succ n ih =>
    intro s calls execs
    rw [runLoop_succ]
    by_cases h : (model calls).tool_calls = []
    · rw [if_pos h]
      show calls + 1 ≤ calls + (n + 1)
      omega
    · rw [if_neg h]
      have hle := ih (s ++ [assistant_message (model calls)] ++
          (model calls).tool_calls.map (tool_message exec))
        (calls + 1) (execs + (model calls).tool_calls.length)
      omega

theorem runLoop_exhaust (model : Nat → ModelResponse)
    (exec : ToolCall → Option String) :
    ∀ (fuel : Nat) (s : List Message) (calls execs : Nat),
      (∀ k, calls ≤ k → k < calls + fuel → (model k).tool_calls ≠ []) →
      (runLoop model exec fuel s calls execs).text = GENERIC_COMPLETION ∧
      (runLoop model exec fuel s calls execs).model_calls =
        calls + fuel := by
  intro fuel
  induction fuel with
  | zero =>
    intro s calls execs _
    simp [runLoop_zero]
  | succ n ih =>
    intro s calls execs h
    have hc : (model calls).tool_calls ≠ [] := h calls le_rfl (by omega)
    rw [runLoop_succ, if_neg hc]
    have hrec := ih (s ++ [assistant_message (model calls)] ++
        (model calls).tool_calls.map (tool_message exec))
      (calls + 1) (execs + (model calls).tool_calls.length)
      (fun k hk1 hk2 => h k (by omega) (by omega))
    have h2 := hrec.2
    exact ⟨hrec.1, by omega⟩

theorem runLoop_tool_truncated (model : Nat → ModelResponse)
    (exec : ToolCall → Option String) :
    ∀ (fuel : Nat) (s : List Message) (calls execs : Nat),
      (∀ m ∈ s, m.role = Role.tool → ∃ r, m.content = truncate_result r) →
      ∀ m ∈ (runLoop model exec fuel s calls execs).session,
        m.role = Role.tool → ∃ r, m.content = truncate_result r := by
  intro fuel
  induction fuel with
  | zero =>
    intro s calls execs hs
    simpa [runLoop_zero] using hs
  | succ n ih =>
    intro s calls execs hs
    rw [runLoop_succ]
    by_cases h : (model calls).tool_calls = []
    · rw [if_pos h]
      exact hs
    · rw [if_neg h]
      refine ih _ (calls + 1) (execs + (model calls).tool_calls.length) ?_
      intro m hm hrole
      rcases List.mem_append.mp hm with hm1 | hm2
      · rcases List.mem_append.mp hm1 with hm3 | hm4
        · exact hs m hm3 hrole
        · rcases List.mem_singleton.mp hm4 with rfl
          exact absurd hrole (by simp [assistant_message])
      · rcases List.mem_map.mp hm2 with ⟨tc, _, rfl⟩
        exact ⟨tool_result_string (exec tc), rfl⟩

/-- Claim C1: one invocation of the agent loop issues at most 5 model
calls; and when each of the first 5 model responses bears tool calls, the
invocation returns the fixed generic completion message having made
exactly 5 model calls — no 6th. -/
theorem C1_model_call_bound (model : Nat → ModelResponse)
    (exec : ToolCall → Option String) (prompt : String) :
    (run_gmail_agent model exec prompt).model_calls ≤ 5 ∧
    ((∀ k, k < 5 → (model k).tool_calls ≠ []) →
      (run_gmail_agent model exec prompt).text = GENERIC_COMPLETION ∧
      (run_gmail_agent model exec prompt).model_calls = 5) := by
  constructor
  · have h := runLoop_model_calls_le model exec 5
      [⟨Role.system, SYSTEM_PROMPT, none, []⟩, ⟨Role.user, prompt, none, []⟩]
      0 0
    simpa [run_gmail_agent, MAX_ITERATIONS] using h
  · intro h
    have hx := runLoop_exhaust model exec 5
      [⟨Role.system, SYSTEM_PROMPT, none, []⟩, ⟨Role.user, prompt, none, []⟩]
      0 0 (fun k _ hk2 => h k (by omega))
    simpa [run_gmail_agent, MAX_ITERATIONS] using hx

/-- Witness for C1: a model answering every call with a tool call drives
the loop to the generic completion message after exactly 5 model calls. -/
theorem C1_witness :
    (run_gmail_agent loopingModel silentExec "list my labels").text =
      GENERIC_COMPLETION ∧
    (run_gmail_agent loopingModel silentExec "list my labels").model_calls =
      5 := by
  exact (C1_model_call_bound loopingModel silentExec "list my labels").2
    (by intro k _; simp [loopingModel])

/-- Claim C2: a tool-result string longer than 15,000 characters is
truncated to exactly its first 15,000 characters plus the fixed suffix
(so its length is 15,000 plus the suffix length); a string of length at
most 15,000 — in particular of exactly the truncated length 15,000 — is
returned unchanged; and every tool-role message the loop appends to the
session carries a truncated result. -/
theorem C2_tool_result_truncation :
    (∀ s : String, TOOL_RESULT_MAX < s.length →
      truncate_result s =
        String.mk (s.data.take TOOL_RESULT_MAX) ++ TRUNCATION_SUFFIX ∧
      (truncate_result s).length =
        TOOL_RESULT_MAX + TRUNCATION_SUFFIX.length) ∧
    (∀ s : String, s.length ≤ TOOL_RESULT_MAX → truncate_result s = s) ∧
    (∀ s : String, s.length = TOOL_RESULT_MAX → truncate_result s = s) ∧
    (∀ (model : Nat → ModelResponse) (exec : ToolCall → Option String)
       (prompt : String),
      ∀ m ∈ (run_gmail_agent model exec prompt).session,
        m.role = Role.tool → ∃ r, m.content = truncate_result r) := by
  refine ⟨?_, ?_, ?_, ?_⟩
  · intro s h
    have heq : truncate_result s =
        String.mk (s.data.take TOOL_RESULT_MAX) ++ TRUNCATION_SUFFIX := by
      simp only [truncate_result]
      rw [if_pos h]
    refine ⟨heq, ?_⟩
    rw [heq, string_length_append, string_length_mk, List.length_take]
    have hd : s.data.length = s.length := rfl
    omega
  · intro s h
    simp only [truncate_result]
    rw [if_neg (by omega)]
  · intro s h
    simp only [truncate_result]
    rw [if_neg (by omega)]
  · intro model exec prompt
    refine runLoop_tool_truncated model exec MAX_ITERATIONS _ 0 0 ?_
    intro m hm hrole
    rcases List.mem_cons.mp hm with rfl | hm2
    · exact absurd hrole (by simp)
    rcases List.mem_singleton.mp hm2 with rfl
    exact absurd hrole (by simp)

/-- Witness for C2: a 15,001-character result is truncated to the cap plus
the suffix length, a short result is unchanged, and a concrete tool-result
message content is a truncation image. -/
theorem C2_witness :
    (truncate_result bigInput).length =
      TOOL_RESULT_MAX + TRUNCATION_SUFFIX.length ∧
    truncate_result "short result" = "short result" ∧
    (∃ r, (tool_message okExec ⟨"call-9", "GMAIL_LIST_DRAFTS", "{}"⟩).content =
      truncate_result r) := by
  have h := C2_tool_result_truncation
  refine ⟨(h.1 bigInput ?_).2, h.2.1 "short result" (by decide), ?_⟩
  · show (15000 : Nat) < bigInput.length
    have hb : bigInput.length = 15001 := by
      show (List.replicate 15001 'x').length = 15001
      exact List.length_replicate 15001 'x'
    rw [hb]
    omega
  · refine h.2.2.2 oneToolModel okExec "hi"
      (tool_message okExec ⟨"call-9", "GMAIL_LIST_DRAFTS", "{}"⟩) ?_ rfl
    decide

/-- Claim C3: when the model's first response bears no tool calls, the
loop performs zero tool executions, makes exactly one model call, and
returns that response's text directly — with empty or absent text mapped
to the fixed fallback string rather than an error. -/
theorem C3_first_response_without_tools (model : Nat → ModelResponse)
    (exec : ToolCall → Option String) (prompt : String)
    (h : (model 0).tool_calls = []) :
    (run_gmail_agent model exec prompt).tool_execs = 0 ∧
    (run_gmail_agent model exec prompt).model_calls = 1 ∧
    (run_gmail_agent model exec prompt).text =
      content_or_fallback (model 0).content ∧
    (∀ t : String, (model 0).content = some t → t ≠ "" →
      (run_gmail_agent model exec prompt).text = t) ∧
    ((model 0).content = none ∨ (model 0).content = some "" →
      (run_gmail_agent model exec prompt).text = EMPTY_FALLBACK) := by
  have hrun : run_gmail_agent model exec prompt =
      ⟨content_or_fallback (model 0).content,
       [⟨Role.system, SYSTEM_PROMPT, none, []⟩,
        ⟨Role.user, prompt, none, []⟩], 1, 0⟩ := by
    show runLoop model exec (4 + 1)
      [⟨Role.system, SYSTEM_PROMPT, none, []⟩,
       ⟨Role.user, prompt, none, []⟩] 0 0 = _
    rw [runLoop_succ, if_pos h]
  rw [hrun]
  refine ⟨rfl, rfl, rfl, ?_, ?_⟩
  · intro t ht hne
    simp [content_or_fallback, ht, hne]
  · rintro (hc | hc) <;> simp [content_or_fallback, hc]

/-- Witness for C3: a first response with plain text is returned as-is
after zero tool executions, and a first response with absent text yields
the fixed fallback string. -/
theorem C3_witness :
    (run_gmail_agent textOnlyModel silentExec "hi").tool_execs = 0 ∧
    (run_gmail_agent textOnlyModel silentExec "hi").text = "hello" ∧
    (run_gmail_agent emptyTextModel silentExec "hi").text =
      EMPTY_FALLBACK := by
  have h1 := C3_first_response_without_tools textOnlyModel silentExec "hi"
    rfl
  have h2 := C3_first_response_without_tools emptyTextModel silentExec "hi"
    rfl
  exact ⟨h1.1, h1.2.2.2.1 "hello" rfl (by decide), h2.2.2.2.2 (Or.inl rfl)⟩

end AgentLoop


